import Mathlib

set_option maxRecDepth 10000
set_option maxHeartbeats 1000000

/-!
Verification of the response-generation pipeline of the Grand's Stories API
(src/api/chat.js).  JavaScript strings are modelled as lists of characters,
JavaScript numbers as rationals (all arithmetic in the verified fragment is
exact decimal arithmetic), and a JavaScript number that can be `undefined` or
`NaN` is modelled as `Option` of a rational.  Randomness (`Math.random`) and
store I/O are modelled by explicit parameters.
-/

/-- Characters of a JavaScript string. -/
abbrev Str := List Char

/-- Build a character list from a string literal. -/
def strL (s : String) : Str := s.toList

/-- The apostrophe character. -/
def apos : Char := Char.ofNat 39

/-- JavaScript String.prototype.toLowerCase (ASCII fragment). -/
def lowerStr (s : Str) : Str := s.map Char.toLower

/-- JavaScript String.prototype.includes: the needle occurs somewhere in the
haystack. -/
def strHas : Str → Str → Bool
  | [], pat => pat.isEmpty
  | c :: cs, pat => pat.isPrefixOf (c :: cs) || strHas cs pat

/-- Word character of the regex character class backslash-w. -/
def wordChar (c : Char) : Bool := c.isAlphanum || c = '_'

/-- Maximal runs of characters satisfying p, in order. -/
def runsOf (p : Char → Bool) (s : Str) : List Str :=
  let step : Char → Str × List Str → Str × List Str := fun c acc =>
    if p c then (c :: acc.1, acc.2)
    else ([], if acc.1.isEmpty then acc.2 else acc.1 :: acc.2)
  let r := s.foldr step ([], [])
  if r.1.isEmpty then r.2 else r.1 :: r.2

/-- Drop characters satisfying p from both ends. -/
def dropEdge (p : Char → Bool) (s : Str) : Str :=
  ((s.dropWhile p).reverse.dropWhile p).reverse

/-- Tokens matched by message.toLowerCase().match of the word-with-apostrophes
regex: each maximal run of word characters and apostrophes contributes the
span from its first to its last word character (the regex word boundaries cut
leading and trailing apostrophes). -/
def jsWordTokens (s : Str) : List Str :=
  ((runsOf (fun c => wordChar c || c = apos) (lowerStr s)).map
    (dropEdge (fun c => c = apos))).filter (fun t => !t.isEmpty)

/-- Sentence terminator characters of the split regex. -/
def sentenceEnd (c : Char) : Bool := c = '.' || c = '!' || c = '?'

/-- Character-wise split at every character satisfying p (segments between
consecutive separators are empty and are removed by the filter below, which
matches splitting on maximal separator runs). -/
def splitSegs (p : Char → Bool) (s : Str) : List Str :=
  let step : Char → Str × List Str → Str × List Str := fun c acc =>
    if p c then ([], acc.1 :: acc.2) else (c :: acc.1, acc.2)
  let r := s.foldr step ([], [])
  r.1 :: r.2

/-- Whitespace test used by JavaScript String.prototype.trim. -/
def isWs (c : Char) : Bool := c.isWhitespace

/-- JavaScript String.prototype.trim. -/
def trimStr (s : Str) : Str := dropEdge isWs s

/-- Sentences of a message: split on runs of terminator characters and keep
the segments whose trim is nonempty. -/
def sentencesOf (s : Str) : List Str :=
  (splitSegs sentenceEnd s).filter (fun seg => (trimStr seg).length > 0)

/-! ### The semantic analyzer (class QuantumSemanticAnalyzer) -/

/-- Topic categories: the keys of the analyzer's semanticNetwork plus the
fallback category general. -/
inductive Topic
  | family | technology | war | philosophy | memory | time | general
deriving DecidableEq

/-- JavaScript string naming a topic category. -/
def topicName : Topic → Str
  | .family => strL "family"
  | .technology => strL "technology"
  | .war => strL "war"
  | .philosophy => strL "philosophy"
  | .memory => strL "memory"
  | .time => strL "time"
  | .general => strL "general"

/-- The analyzer's semanticNetwork: category to keyword list, in declaration
order. -/
def semanticNetwork : List (Topic × List Str) :=
  [ (.family, [strL "wife", strL "husband", strL "children", strL "son",
      strL "daughter", strL "family", strL "married", strL "kids",
      strL "grandkids", strL "martha"]),
    (.technology, [strL "computer", strL "code", strL "program",
      strL "algorithm", strL "software", strL "hardware", strL "tech",
      strL "digital", strL "binary", strL "punch card", strL "fortran",
      strL "lisp"]),
    (.war, [strL "war", strL "military", strL "army", strL "signal",
      strL "corps", strL "soldier", strL "battle", strL "wwii",
      strL "enigma"]),
    (.philosophy, [strL "life", strL "meaning", strL "purpose", strL "exist",
      strL "think", strL "believe", strL "truth", strL "wisdom"]),
    (.memory, [strL "remember", strL "memory", strL "past", strL "old",
      strL "nostalgia", strL "recall", strL "forget"]),
    (.time, [strL "time", strL "year", strL "decade", strL "century",
      strL "past", strL "future", strL "now", strL "then"]) ]

/-- QuantumSemanticAnalyzer.extractTopics: a category is included when one of
its keywords occurs in the lowercased message; general when none match. -/
def extractTopics (message : Str) : List Topic :=
  let lowerMessage := lowerStr message
  let topics := semanticNetwork.filterMap (fun cw =>
    if cw.2.any (fun keyword => strHas lowerMessage keyword) then some cw.1
    else none)
  if topics.isEmpty then [.general] else topics

/-- Named emotions of the analyzer's emotion lexicon, plus neutral. -/
inductive EmotionName
  | joy | love | hope | pride | sadness | anger | fear | disgust
  | curiosity | surprise | confusion | neutral
deriving DecidableEq

/-- JavaScript string naming an emotion. -/
def emotionName : EmotionName → Str
  | .joy => strL "joy"
  | .love => strL "love"
  | .hope => strL "hope"
  | .pride => strL "pride"
  | .sadness => strL "sadness"
  | .anger => strL "anger"
  | .fear => strL "fear"
  | .disgust => strL "disgust"
  | .curiosity => strL "curiosity"
  | .surprise => strL "surprise"
  | .confusion => strL "confusion"
  | .neutral => strL "neutral"

/-- Positive half of initializeEmotionLexicon. -/
def emotionLexiconPositive : List (EmotionName × List Str) :=
  [ (.joy, [strL "happy", strL "glad", strL "joy", strL "pleasure",
      strL "delight", strL "wonderful", strL "amazing"]),
    (.love, [strL "love", strL "adore", strL "cherish", strL "treasure",
      strL "affection", strL "fond"]),
    (.hope, [strL "hope", strL "optimistic", strL "expect", strL "anticipate",
      strL "look forward"]),
    (.pride, [strL "proud", strL "accomplished", strL "achieved",
      strL "success", strL "triumph"]) ]

/-- Negative half of initializeEmotionLexicon. -/
def emotionLexiconNegative : List (EmotionName × List Str) :=
  [ (.sadness, [strL "sad", strL "unhappy", strL "depressed",
      strL "melancholy", strL "grief", strL "sorrow"]),
    (.anger, [strL "angry", strL "mad", strL "furious", strL "rage",
      strL "annoyed", strL "irritated"]),
    (.fear, [strL "fear", strL "afraid", strL "scared", strL "terrified",
      strL "anxious", strL "worried"]),
    (.disgust, [strL "disgust", strL "hate", strL "loathe", strL "repulsed",
      strL "revolted"]) ]

/-- Sentiment labels produced by the analyzer. -/
inductive Sentiment
  | positive | negative | neutral
deriving DecidableEq

/-- JavaScript string naming a sentiment. -/
def sentimentName : Sentiment → Str
  | .positive => strL "positive"
  | .negative => strL "negative"
  | .neutral => strL "neutral"

/-- Count of lexicon word hits in a lowercased message, iterating the nested
lexicon exactly as the source loops do. -/
def countLexiconHits (lexicon : List (EmotionName × List Str))
    (lowerMessage : Str) : Nat :=
  lexicon.foldl (fun acc ew =>
    ew.2.foldl (fun n w => if strHas lowerMessage w then n + 1 else n) acc) 0

/-- QuantumSemanticAnalyzer.analyzeSentiment. -/
def analyzeSentiment (message : Str) : Sentiment :=
  let lowerMessage := lowerStr message
  let positiveScore := countLexiconHits emotionLexiconPositive lowerMessage
  let negativeScore := countLexiconHits emotionLexiconNegative lowerMessage
  if positiveScore > negativeScore then .positive
  else if negativeScore > positiveScore then .negative
  else .neutral

/-- QuantumSemanticAnalyzer.calculateSentimentScore: one running score,
incremented per positive hit, decremented per negative hit, divided by 10.
The source applies no clamping. -/
def calculateSentimentScore (message : Str) : ℚ :=
  (emotionLexiconNegative.foldl (fun acc ew =>
    ew.2.foldl (fun a w => if strHas (lowerStr message) w then a - 1 else a) acc)
    (emotionLexiconPositive.foldl (fun acc ew =>
      ew.2.foldl (fun a w => if strHas (lowerStr message) w then a + 1 else a) acc)
      0)) / 10

/-- Number of positive-lexicon hits for a message. -/
def posCount (message : Str) : Nat :=
  countLexiconHits emotionLexiconPositive (lowerStr message)

/-- Number of negative-lexicon hits for a message. -/
def negCount (message : Str) : Nat :=
  countLexiconHits emotionLexiconNegative (lowerStr message)

/-- QuantumSemanticAnalyzer.calculateComplexity. -/
def calculateComplexity (message : Str) : ℚ :=
  let sentences := sentencesOf message
  let words := jsWordTokens message
  if words.length = 0 then 0
  else
    let avgWordLength : ℚ := ((words.map (·.length)).sum : ℚ) / words.length
    let lexicalDiversity : ℚ := (words.dedup.length : ℚ) / words.length
    min 1 ((avgWordLength / 10) * (3/10) + lexicalDiversity * (2/5) +
      ((sentences.length : ℚ) / 5) * (3/10))

/-- Urgency levels. -/
inductive Urgency
  | low | medium | high
deriving DecidableEq

/-- Keyword list of detectUrgency. -/
def urgentWords : List Str :=
  [strL "urgent", strL "emergency", strL "help", strL "now",
   strL "immediately", strL "quick", strL "fast", strL "asap", strL "hurry"]

/-- QuantumSemanticAnalyzer.detectUrgency. -/
def detectUrgency (message : Str) : Urgency :=
  let lowerMessage := lowerStr message
  if urgentWords.any (fun w => strHas lowerMessage w) then .high
  else if message.contains '?' || message.contains '!' then .medium
  else .low

/-- Abstraction levels. -/
inductive Abstraction
  | neutral | high | low | medium
deriving DecidableEq

/-- Abstract keyword list of detectAbstraction. -/
def abstractWords : List Str :=
  [strL "idea", strL "concept", strL "theory", strL "philosophy",
   strL "meaning", strL "purpose", strL "existence", strL "truth"]

/-- Concrete keyword list of detectAbstraction. -/
def concreteWords : List Str :=
  [strL "touch", strL "see", strL "hear", strL "smell", strL "taste",
   strL "object", strL "thing", strL "person", strL "place"]

/-- QuantumSemanticAnalyzer.detectAbstraction. -/
def detectAbstraction (message : Str) : Abstraction :=
  let lowerMessage := lowerStr message
  let abstractCount := abstractWords.countP (fun w => strHas lowerMessage w)
  let concreteCount := concreteWords.countP (fun w => strHas lowerMessage w)
  if abstractCount = 0 ∧ concreteCount = 0 then .neutral
  else if abstractCount > concreteCount * 2 then .high
  else if concreteCount > abstractCount * 2 then .low
  else .medium

/-- Timeframes of initializeTemporalPatterns. -/
inductive Timeframe
  | past | present | future | continuous
deriving DecidableEq

/-- The analyzer's temporalPatterns, in declaration order. -/
def temporalPatterns : List (Timeframe × List Str) :=
  [ (.past, [strL "ago", strL "was", strL "were", strL "had", strL "did",
      strL "used to", strL "back then", strL "in the past", strL "years ago",
      strL "decades ago"]),
    (.present, [strL "now", strL "currently", strL "today", strL "at present",
      strL "right now", strL "these days"]),
    (.future, [strL "will", strL "going to", strL "shall", strL "future",
      strL "tomorrow", strL "soon", strL "next", strL "later"]),
    (.continuous, [strL "always", strL "never", strL "forever", strL "eternal",
      strL "permanent", strL "constant"]) ]

/-- QuantumSemanticAnalyzer.extractTimeReferences, keeping only the timeframe
of each reference (at most one reference per timeframe, in declaration
order). -/
def extractTimeReferences (message : Str) : List Timeframe :=
  let lowerMessage := lowerStr message
  temporalPatterns.filterMap (fun tp =>
    if tp.2.any (fun pat => strHas lowerMessage pat) then some tp.1 else none)

/-- QuantumSemanticAnalyzer.determineTemporalOrientation: present when no
timeframe matched, otherwise the reduce over the matched timeframes (each
with count one, so the comparison count a strictly greater than count b is
always false and the reduce keeps the later element). -/
def determineTemporalOrientation (message : Str) : Timeframe :=
  let references := extractTimeReferences message
  match references with
  | [] => .present
  | a :: rest =>
    rest.foldl (fun x y =>
      if references.count x > references.count y then x else y) a

/-- Interrogative lead alternatives of the containsQuestion regex. -/
def questionLeads : List Str :=
  [strL "what", strL "who", strL "where", strL "when", strL "why",
   strL "how", strL "can", strL "could", strL "would", strL "will",
   strL "do", strL "does", strL "did", strL "is", strL "are", strL "was",
   strL "were", strL "tell me", strL "explain", strL "i wonder",
   strL "curious"]

/-- The containsQuestion field of baseAnalysis: the regex is anchored at the
start, so it tests whether the trimmed message begins with one of the
interrogative leads (case-insensitively). -/
def containsQuestion (message : Str) : Bool :=
  let t := lowerStr (trimStr message)
  questionLeads.any (fun lead => lead.isPrefixOf t)

/-- Personal pronoun list of countPersonalPronouns. -/
def pronounList : List Str :=
  [strL "i", strL "me", strL "my", strL "mine", strL "myself", strL "you",
   strL "your", strL "yours", strL "yourself", strL "we", strL "us",
   strL "our", strL "ours", strL "ourselves"]

/-- QuantumSemanticAnalyzer.countPersonalPronouns. -/
def countPersonalPronouns (message : Str) : Nat :=
  (jsWordTokens message).countP (fun w => pronounList.contains w)

/-- The six deterministic analyzer fields named by the determinism property. -/
structure AnalyzerObs where
  topics : List Topic
  sentiment : Sentiment
  complexity : ℚ
  urgency : Urgency
  abstractionLevel : Abstraction
  temporalOrientation : Timeframe
deriving DecidableEq

/-- The six observable fields computed by one analyzer run on a message. -/
def analyzerObservables (message : Str) : AnalyzerObs :=
  ⟨extractTopics message, analyzeSentiment message,
   calculateComplexity message, detectUrgency message,
   detectAbstraction message, determineTemporalOrientation message⟩

/-! ### Counting lemmas for the sentiment score -/

theorem foldl_count_nat (p : Str → Bool) (ws : List Str) (n : Nat) :
    ws.foldl (fun a w => if p w then a + 1 else a) n = n + ws.countP p := by
  induction ws generalizing n with
  | nil => simp
  | cons w ws ih =>
    by_cases h : p w
    · simp [h, ih, List.countP_cons]
      omega
    · simp [h, ih, List.countP_cons]

theorem foldl_count_rat_add (p : Str → Bool) (ws : List Str) (a : ℚ) :
    ws.foldl (fun x w => if p w then x + 1 else x) a = a + (ws.countP p : ℚ) := by
  induction ws generalizing a with
  | nil => simp
  | cons w ws ih =>
    by_cases h : p w
    · simp only [List.foldl_cons, h, if_pos, List.countP_cons, ih]
      push_cast
      ring
    · simp [h, ih, List.countP_cons]

theorem foldl_count_rat_sub (p : Str → Bool) (ws : List Str) (a : ℚ) :
    ws.foldl (fun x w => if p w then x - 1 else x) a = a - (ws.countP p : ℚ) := by
  induction ws generalizing a with
  | nil => simp
  | cons w ws ih =>
    by_cases h : p w
    · simp only [List.foldl_cons, h, if_pos, List.countP_cons, ih]
      push_cast
      ring
    · simp [h, ih, List.countP_cons]

/-- Per-category hit counts of a lexicon. -/
def lexiconCounts (lexicon : List (EmotionName × List Str)) (lm : Str) : List Nat :=
  lexicon.map (fun ew => ew.2.countP (strHas lm))

theorem countfold_general (lex : List (EmotionName × List Str)) (lm : Str) (n : Nat) :
    lex.foldl (fun acc ew =>
      ew.2.foldl (fun x w => if strHas lm w then x + 1 else x) acc) n
      = n + (lexiconCounts lex lm).sum := by
  induction lex generalizing n with
  | nil => simp [lexiconCounts]
  | cons ew lex ih =>
    simp only [List.foldl_cons, lexiconCounts, List.map_cons, List.sum_cons]
    rw [foldl_count_nat (strHas lm), ih]
    simp only [lexiconCounts]
    omega

theorem countLexiconHits_eq_sum (lex : List (EmotionName × List Str)) (lm : Str) :
    countLexiconHits lex lm = (lexiconCounts lex lm).sum := by
  unfold countLexiconHits
  rw [countfold_general]
  omega

theorem ratfold_add_general (lex : List (EmotionName × List Str)) (lm : Str) (a : ℚ) :
    lex.foldl (fun acc ew =>
      ew.2.foldl (fun x w => if strHas lm w then x + 1 else x) acc) a
      = a + ((lexiconCounts lex lm).sum : ℚ) := by
  induction lex generalizing a with
  | nil => simp [lexiconCounts]
  | cons ew lex ih =>
    simp only [List.foldl_cons, lexiconCounts, List.map_cons, List.sum_cons]
    rw [foldl_count_rat_add (strHas lm), ih]
    simp only [lexiconCounts]
    push_cast
    ring

theorem ratfold_sub_general (lex : List (EmotionName × List Str)) (lm : Str) (a : ℚ) :
    lex.foldl (fun acc ew =>
      ew.2.foldl (fun x w => if strHas lm w then x - 1 else x) acc) a
      = a - ((lexiconCounts lex lm).sum : ℚ) := by
  induction lex generalizing a with
  | nil => simp [lexiconCounts]
  | cons ew lex ih =>
    simp only [List.foldl_cons, lexiconCounts, List.map_cons, List.sum_cons]
    rw [foldl_count_rat_sub (strHas lm), ih]
    simp only [lexiconCounts]
    push_cast
    ring

theorem calculateSentimentScore_eq (m : Str) :
    calculateSentimentScore m = ((posCount m : ℚ) - (negCount m : ℚ)) / 10 := by
  unfold calculateSentimentScore posCount negCount
  rw [ratfold_add_general, ratfold_sub_general,
    countLexiconHits_eq_sum, countLexiconHits_eq_sum]
  push_cast
  ring

/-- The concrete input for the C5 counterexample: it contains eleven distinct
positive-lexicon words and no negative-lexicon word. -/
def elevenPositiveMessage : Str :=
  strL "happy glad joy pleasure delight wonderful amazing love adore cherish treasure"

/-- C5 counterexample: the claim says the sentiment score is clamped to
[-1, 1], but calculateSentimentScore applies no clamping: on a message with
eleven positive hits and no negative hit the code returns 11/10 while the
claimed (clamped) value is 1. -/
theorem sentiment_score_exceeds_one :
    calculateSentimentScore elevenPositiveMessage = 11/10 ∧
    max (-1) (min 1 (((posCount elevenPositiveMessage : ℚ) -
      (negCount elevenPositiveMessage : ℚ)) / 10)) = 1 ∧
    ¬ calculateSentimentScore elevenPositiveMessage ≤ 1 := by
  have hp : posCount elevenPositiveMessage = 11 := by decide
  have hn : negCount elevenPositiveMessage = 0 := by decide
  have hs := calculateSentimentScore_eq elevenPositiveMessage
  rw [hp, hn] at hs
  norm_num at hs
  refine ⟨hs, ?_, ?_⟩
  · rw [hp, hn]
    push_cast
    rw [show ((11 : ℚ) - 0) / 10 = 11/10 by norm_num]
    rw [min_eq_left (by norm_num), max_eq_right (by norm_num)]
  · rw [hs]
    norm_num

/-- C5 amended: for every message text the analyzer sentiment score equals
(positive hits - negative hits) / 10, with no clamping applied. -/
theorem sentiment_score_unclamped (m : Str) :
    calculateSentimentScore m = ((posCount m : ℚ) - (negCount m : ℚ)) / 10 :=
  calculateSentimentScore_eq m

/-! ### Personality matrix (class PersonalityMatrix) -/

/-- Trait names appearing in the personality vector, the trait-bounds table or
the per-state trait targets.  The technology and philosophy keys are read by
the candidate selector (calculatePersonalityMatch) and are never set on a
generated vector. -/
inductive TraitName
  | curiosity | nostalgia | wisdom | playfulness | patience | creativity
  | skepticism | enthusiasm | reflection | technology | philosophy
deriving DecidableEq

/-- Bounds and volatility of one trait (defineTraits entries). -/
structure TraitBounds where
  min : ℚ
  max : ℚ
  volatility : ℚ
deriving DecidableEq

/-- PersonalityMatrix.defineTraits: per-trait bounds; none for keys that have
no entry in the traits table. -/
def defineTraits : TraitName → Option TraitBounds
  | .curiosity => some ⟨3/5, 9/10, 1/10⟩
  | .nostalgia => some ⟨1/2, 4/5, 3/20⟩
  | .wisdom => some ⟨2/5, 7/10, 1/20⟩
  | .playfulness => some ⟨3/10, 3/5, 1/5⟩
  | .patience => some ⟨7/10, 19/20, 1/50⟩
  | .creativity => some ⟨1/2, 4/5, 1/10⟩
  | .skepticism => some ⟨3/10, 3/5, 2/25⟩
  | .enthusiasm => some ⟨2/5, 7/10, 3/25⟩
  | _ => none

/-- Names of the personality state machine's states. -/
inductive StateName
  | engaged | reflective | creative | patient | nostalgic | instructive
deriving DecidableEq

/-- PersonalityMatrix.defineStates: the trait targets of each state, in
declaration order. -/
def stateTraits : StateName → List (TraitName × ℚ)
  | .engaged => [(.curiosity, 4/5), (.enthusiasm, 7/10)]
  | .reflective => [(.nostalgia, 4/5), (.wisdom, 7/10)]
  | .creative => [(.creativity, 4/5), (.playfulness, 3/5)]
  | .patient => [(.patience, 9/10), (.wisdom, 3/5)]
  | .nostalgic => [(.nostalgia, 9/10), (.reflection, 7/10)]
  | .instructive => [(.wisdom, 4/5), (.patience, 7/10)]

/-- A personality trait assignment: a JavaScript object mapping trait names to
numbers, where a missing property is none. -/
def Traits := TraitName → Option ℚ

/-- Functional update of one trait. -/
def updTrait (v : Traits) (t : TraitName) (q : ℚ) : Traits :=
  fun x => if x = t then some q else v x

/-- JavaScript expression x || d for an optional number (undefined and 0 are
falsy). -/
def jsOrElse (x : Option ℚ) (d : ℚ) : ℚ :=
  match x with
  | some v => if v = 0 then d else v
  | none => d

/-- One iteration of the adjustTraitsForState loop: blend the targeted trait
toward the target by its volatility, then clamp to the trait bounds when the
trait has a bounds entry.  Traits missing from the vector are skipped. -/
def adjustStep (adjusted : Traits) (tv : TraitName × ℚ) : Traits :=
  match adjusted tv.1 with
  | none => adjusted
  | some cur =>
    let volatility := jsOrElse ((defineTraits tv.1).map (·.volatility)) (1/10)
    let blended := cur * (1 - volatility) + tv.2 * volatility
    let clamped :=
      match defineTraits tv.1 with
      | some b => max b.min (min b.max blended)
      | none => blended
    updTrait adjusted tv.1 clamped

/-- PersonalityMatrix.adjustTraitsForState. -/
def adjustTraitsForState (state : StateName) (currentTraits : Traits) : Traits :=
  (stateTraits state).foldl adjustStep currentTraits

/-- Iterated trait adjustment over a sequence of visited states (one
adjustTraitsForState application per turn). -/
def applyStates (seq : List StateName) (v : Traits) : Traits :=
  seq.foldl (fun traits s => adjustTraitsForState s traits) v

/-- AdvancedConversationStateManager.generatePersonalityVector, with the six
Math.random() draws supplied as an explicit map r from trait names to values
in the unit interval.  Only six traits receive values; every other trait key
is absent from the generated object. -/
def generatePersonalityVector (r : TraitName → ℚ) : Traits :=
  fun t =>
    match t with
    | .curiosity => some (4/5 + r .curiosity * (1/5))
    | .nostalgia => some (7/10 + r .nostalgia * (3/10))
    | .wisdom => some (3/5 + r .wisdom * (2/5))
    | .playfulness => some (2/5 + r .playfulness * (3/10))
    | .patience => some (9/10 + r .patience * (1/10))
    | .creativity => some (7/10 + r .creativity * (3/10))
    | _ => none

/-- The random draw used by the concrete personality-bounds counterexample. -/
def rThreeQuarters : TraitName → ℚ := fun _ => 3/4

/-! ### Conversation state (the slice the verified components read) -/

/-- Message roles stored in the short-term memory. -/
inductive Role
  | user | benn
deriving DecidableEq

/-- A stored message. -/
structure Msg where
  role : Role
  content : Str

/-- The slice of the conversation state read by the candidate generator and
selector: recent messages, the personality vector and conversational depth. -/
structure ConvState where
  shortTermMemory : List Msg
  personalityVector : Traits
  conversationalDepth : ℚ

/-! ### Claims C6 and C7 about the analyzer -/

/-- The analysis step of generateQuantumBennResponse: the analyzer is a fresh
QuantumSemanticAnalyzer and is applied to the user message alone; the state
manager is in scope at the call site but none of the six observable fields
reads it. -/
def turnAnalysisObservables (userMessage : Str) (stateManager : ConvState) :
    AnalyzerObs :=
  analyzerObservables userMessage

/-- C6: the analyzer fields topics, sentiment, complexity, urgency,
abstractionLevel and temporalOrientation are pure functions of the message
text: two runs in the same turn position with arbitrary different
conversation states produce identical values. -/
theorem analyzer_deterministic_state_independent (m : Str)
    (s1 s2 : ConvState) :
    turnAnalysisObservables m s1 = turnAnalysisObservables m s2 := rfl

/-- The concrete scenario input of claim C7. -/
def marthaMessage : Str := strL "I love my wife Martha, tell me about family"

/-- C7 counterexample: the containsQuestion regex is anchored at the start of
the message, and the scenario input does not start with an interrogative lead
(tell me occurs mid-message), so containsQuestion is false, not true as the
claim states. -/
theorem martha_scenario_containsQuestion_false :
    containsQuestion marthaMessage = false := by decide

/-- C7 amended: on the scenario input the topics contain family and the
sentiment is positive, but containsQuestion is false. -/
theorem martha_scenario_amended :
    Topic.family ∈ extractTopics marthaMessage ∧
    analyzeSentiment marthaMessage = Sentiment.positive ∧
    containsQuestion marthaMessage = false := by decide

/-! ### Claim C3: trait bounds under state-machine adjustment -/

/-- C3 counterexample: generatePersonalityVector ignores the configured trait
bounds.  With every random draw equal to 3/4 the generated nostalgia value is
7/10 + 3/4 * 3/10 = 37/40, above the configured maximum 4/5, and one engaged
transition leaves nostalgia untouched, so after that transition the trait
still exceeds its bound. -/
theorem personality_vector_exceeds_bounds :
    ∃ q b,
      applyStates [StateName.engaged]
        (generatePersonalityVector rThreeQuarters) TraitName.nostalgia = some q ∧
      defineTraits TraitName.nostalgia = some b ∧ b.max < q := by
  refine ⟨7/10 + 3/4 * (3/10), ⟨1/2, 4/5, 3/20⟩, rfl, rfl, by norm_num⟩

/-- Bound tables are well formed: every declared minimum is at most the
declared maximum. -/
theorem defineTraits_min_le_max (t : TraitName) (b : TraitBounds)
    (hb : defineTraits t = some b) : b.min ≤ b.max := by
  cases t <;> simp only [defineTraits, Option.some.injEq] at hb <;>
    first
      | (rw [← hb]; norm_num)
      | exact absurd hb (by simp)

/-- An optional trait value lying inside given bounds. -/
def inBounds (b : TraitBounds) (x : Option ℚ) : Prop :=
  ∃ q, x = some q ∧ b.min ≤ q ∧ q ≤ b.max

theorem adjustStep_isSome (v : Traits) (tv : TraitName × ℚ) (t : TraitName) :
    ((adjustStep v tv) t).isSome = (v t).isSome := by
  unfold adjustStep
  cases hv : v tv.1 with
  | none => rfl
  | some cur =>
    by_cases ht : t = tv.1
    · subst ht
      simp [updTrait, hv]
    · simp [updTrait, ht]

theorem adjustStep_other (v : Traits) (tv : TraitName × ℚ) (t : TraitName)
    (ht : t ≠ tv.1) : (adjustStep v tv) t = v t := by
  unfold adjustStep
  cases hv : v tv.1 with
  | none => rfl
  | some cur => simp [updTrait, ht]

theorem adjustStep_touch (v : Traits) (tv : TraitName × ℚ) (b : TraitBounds)
    (hb : defineTraits tv.1 = some b) (hdef : ((v tv.1).isSome) = true) :
    inBounds b ((adjustStep v tv) tv.1) := by
  cases hv : v tv.1 with
  | none => rw [hv] at hdef; simp at hdef
  | some cur =>
    have hmm := defineTraits_min_le_max tv.1 b hb
    obtain ⟨q, hq⟩ : ∃ q, (adjustStep v tv) tv.1 = some (max b.min (min b.max q)) := by
      unfold adjustStep
      simp [hv, hb, updTrait]
      exact ⟨_, rfl⟩
    exact ⟨_, hq, le_max_left _ _, max_le hmm (min_le_left _ _)⟩

theorem adjustStep_preserve (v : Traits) (tv : TraitName × ℚ) (t : TraitName)
    (b : TraitBounds) (hb : defineTraits t = some b)
    (h : inBounds b (v t)) : inBounds b ((adjustStep v tv) t) := by
  by_cases ht : tv.1 = t
  · subst ht
    obtain ⟨q, hq, _, _⟩ := h
    exact adjustStep_touch v tv b hb (by rw [hq]; rfl)
  · rw [adjustStep_other v tv t (fun hh => ht hh.symm)]
    exact h

theorem foldl_adjust_isSome (l : List (TraitName × ℚ)) (v : Traits)
    (t : TraitName) :
    ((l.foldl adjustStep v) t).isSome = (v t).isSome := by
  induction l generalizing v with
  | nil => rfl
  | cons tv l ih => rw [List.foldl_cons, ih, adjustStep_isSome]

theorem foldl_adjust_preserve (l : List (TraitName × ℚ)) (v : Traits)
    (t : TraitName) (b : TraitBounds) (hb : defineTraits t = some b)
    (h : inBounds b (v t)) : inBounds b ((l.foldl adjustStep v) t) := by
  induction l generalizing v with
  | nil => exact h
  | cons tv l ih =>
    rw [List.foldl_cons]
    exact ih _ (adjustStep_preserve v tv t b hb h)

theorem foldl_adjust_touch (l : List (TraitName × ℚ)) (v : Traits)
    (t : TraitName) (b : TraitBounds) (hb : defineTraits t = some b)
    (htouch : l.any (fun tv => decide (tv.1 = t)) = true)
    (hdef : ((v t).isSome) = true) :
    inBounds b ((l.foldl adjustStep v) t) := by
  induction l generalizing v with
  | nil => simp at htouch
  | cons tv l ih =>
    rw [List.foldl_cons]
    rw [List.any_cons] at htouch
    by_cases ht : tv.1 = t
    · subst ht
      exact foldl_adjust_preserve l _ _ b hb (adjustStep_touch v tv b hb hdef)
    · have htouch2 : l.any (fun tv => decide (tv.1 = t)) = true := by
        rcases Bool.or_eq_true_iff.mp htouch with h1 | h2
        · exact absurd (of_decide_eq_true h1) ht
        · exact h2
      exact ih _ htouch2 (by rw [adjustStep_isSome]; exact hdef)

theorem adjustTraits_preserve (s : StateName) (v : Traits) (t : TraitName)
    (b : TraitBounds) (hb : defineTraits t = some b)
    (h : inBounds b (v t)) : inBounds b ((adjustTraitsForState s v) t) :=
  foldl_adjust_preserve _ v t b hb h

theorem applyStates_preserve (seq : List StateName) (v : Traits)
    (t : TraitName) (b : TraitBounds) (hb : defineTraits t = some b)
    (h : inBounds b (v t)) : inBounds b ((applyStates seq v) t) := by
  induction seq generalizing v with
  | nil => exact h
  | cons s seq ih =>
    exact ih _ (adjustTraits_preserve s v t b hb h)

/-- C3 amended: generatePersonalityVector can produce values outside the
configured bounds and traits the visited states never target are left
untouched; but every trait that is present in the vector and is targeted by at
least one visited state ends (and stays) inside its configured bounds after
the sequence of adjustTraitsForState applications. -/
theorem adjusted_traits_within_bounds (seq : List StateName) (v : Traits)
    (t : TraitName) (b : TraitBounds) (hb : defineTraits t = some b)
    (htouch : seq.any (fun s => (stateTraits s).any (fun tv => decide (tv.1 = t))) = true)
    (hdef : ((v t).isSome) = true) :
    ∃ q, applyStates seq v t = some q ∧ b.min ≤ q ∧ q ≤ b.max := by
  induction seq generalizing v with
  | nil => simp at htouch
  | cons s seq ih =>
    rw [List.any_cons] at htouch
    by_cases hs : (stateTraits s).any (fun tv => decide (tv.1 = t)) = true
    · have hstep : inBounds b ((adjustTraitsForState s v) t) :=
        foldl_adjust_touch _ v t b hb hs hdef
      exact applyStates_preserve seq _ t b hb hstep
    · have hrest : seq.any (fun s => (stateTraits s).any (fun tv => decide (tv.1 = t))) = true := by
        rcases Bool.or_eq_true_iff.mp htouch with h1 | h2
        · exact absurd h1 hs
        · exact h2
      have hdef2 : (((adjustTraitsForState s v) t).isSome) = true := by
        unfold adjustTraitsForState
        rw [foldl_adjust_isSome]
        exact hdef
      exact ih _ hrest hdef2

/-- C3 witness: one reflective transition drives the (initially out-of-bounds)
nostalgia trait of a freshly generated vector into its configured bounds. -/
theorem adjusted_traits_within_bounds_witness :
    ∃ q, applyStates [StateName.reflective]
        (generatePersonalityVector rThreeQuarters) TraitName.nostalgia = some q ∧
      (1 : ℚ)/2 ≤ q ∧ q ≤ 4/5 :=
  adjusted_traits_within_bounds [StateName.reflective]
    (generatePersonalityVector rThreeQuarters) TraitName.nostalgia
    ⟨1/2, 4/5, 3/20⟩ rfl (by decide) rfl

/-! ### Memory ranking (class MemoryLattice) -/

/-- A memory_fragments row as read by the ranker.  last_accessed is the epoch
millisecond value of new Date(memory.last_accessed).getTime(); relevance_score
is an optional column (undefined when absent). -/
structure MemoryFragment where
  id : Nat
  weight : ℚ
  last_accessed : ℚ
  accessed_count : ℚ
  relevance_score : Option ℚ

/-- MemoryLattice.calculateMemoryScore: weight*0.4 + recency*0.3 +
accessFrequency*0.2 + relevance*0.1, with daysSince = (now - lastAccessed) in
days, recency = max 0 (1 - daysSince/30), accessFrequency =
min 1 (accessedCount/100) and relevance defaulting to 0.5 through the
JavaScript or-operator. -/
def calculateMemoryScore (now : ℚ) (memory : MemoryFragment) : ℚ :=
  memory.weight * (2/5)
    + (max 0 (1 - ((now - memory.last_accessed) / 86400000) / 30)) * (3/10)
    + (min 1 (memory.accessed_count / 100)) * (1/5)
    + (jsOrElse memory.relevance_score (1/2)) * (1/10)

/-- One Map.prototype.set step of new Map(memories.map(m => [m.id, m])): an
existing key keeps its position but receives the new value, a new key is
appended. -/
def jsMapSet (acc : List (Nat × MemoryFragment)) (k : Nat) (v : MemoryFragment) :
    List (Nat × MemoryFragment) :=
  if acc.any (fun p => decide (p.1 = k)) then
    acc.map (fun p => if p.1 = k then (p.1, v) else p)
  else acc ++ [(k, v)]

/-- Deduplication by id in rankMemories, via Map insertion order. -/
def dedupeById (memories : List MemoryFragment) : List MemoryFragment :=
  (memories.foldl (fun acc m => jsMapSet acc m.id m) []).map (·.2)

/-- The ECMAScript sort order induced by the comparator
(a, b) => b.score - a.score on score-carrying pairs: a may precede b exactly
when the comparator value is at most zero. -/
def memPairLe (a b : MemoryFragment × ℚ) : Prop := b.2 - a.2 ≤ 0

instance : DecidableRel memPairLe := fun a b =>
  inferInstanceAs (Decidable (b.2 - a.2 ≤ 0))

instance : IsTotal (MemoryFragment × ℚ) memPairLe :=
  ⟨fun a b => by
    unfold memPairLe
    rcases le_total a.2 b.2 with h | h
    · right; linarith
    · left; linarith⟩

instance : IsTrans (MemoryFragment × ℚ) memPairLe :=
  ⟨fun a b c hab hbc => by
    unfold memPairLe at hab hbc ⊢
    linarith⟩

/-- MemoryLattice.rankMemories: deduplicate by id, score, sort descending by
score (stable), return the first ten memories. -/
def rankMemories (now : ℚ) (memories : List MemoryFragment) :
    List MemoryFragment :=
  ((((dedupeById memories).map
      (fun m => (m, calculateMemoryScore now m))).insertionSort
        memPairLe).take 10).map (·.1)

theorem update_keys (acc : List (Nat × MemoryFragment)) (k : Nat)
    (v : MemoryFragment) :
    ((acc.map (fun p => if p.1 = k then (p.1, v) else p)).map (·.1))
      = acc.map (·.1) := by
  induction acc with
  | nil => rfl
  | cons p acc ih => by_cases h : p.1 = k <;> simp [h, ih]

theorem jsMapSet_keys_nodup (acc : List (Nat × MemoryFragment)) (k : Nat)
    (v : MemoryFragment) (h : (acc.map (·.1)).Nodup) :
    ((jsMapSet acc k v).map (·.1)).Nodup := by
  unfold jsMapSet
  by_cases hk : acc.any (fun p => decide (p.1 = k)) = true
  · rw [if_pos hk, update_keys]
    exact h
  · rw [if_neg hk, List.map_append]
    simp only [List.map_cons, List.map_nil]
    rw [List.nodup_append]
    refine ⟨h, List.nodup_singleton k, ?_⟩
    intro a ha hb
    simp only [List.mem_singleton] at hb
    subst hb
    obtain ⟨p, hp, hpk⟩ := List.mem_map.mp ha
    exact hk (List.any_eq_true.mpr ⟨p, hp, by simp [hpk]⟩)

/-- Every stored pair has its value's id as its key. -/
def KeysMatch (acc : List (Nat × MemoryFragment)) : Prop :=
  ∀ p ∈ acc, p.2.id = p.1

theorem jsMapSet_keysMatch (acc : List (Nat × MemoryFragment)) (k : Nat)
    (v : MemoryFragment) (hv : v.id = k) (h : KeysMatch acc) :
    KeysMatch (jsMapSet acc k v) := by
  unfold jsMapSet
  by_cases hk : acc.any (fun p => decide (p.1 = k)) = true
  · rw [if_pos hk]
    intro p hp
    obtain ⟨q, hq, hqp⟩ := List.mem_map.mp hp
    by_cases hqk : q.1 = k
    · rw [if_pos hqk] at hqp
      rw [← hqp]
      simpa [hv] using hqk.symm
    · rw [if_neg hqk] at hqp
      rw [← hqp]
      exact h q hq
  · rw [if_neg hk]
    intro p hp
    rcases List.mem_append.mp hp with hp1 | hp2
    · exact h p hp1
    · simp only [List.mem_singleton] at hp2
      rw [hp2]
      exact hv

theorem dedupe_fold_invariants (ms : List MemoryFragment)
    (acc : List (Nat × MemoryFragment))
    (h1 : (acc.map (·.1)).Nodup) (h2 : KeysMatch acc) :
    (((ms.foldl (fun acc m => jsMapSet acc m.id m) acc).map (·.1)).Nodup ∧
      KeysMatch (ms.foldl (fun acc m => jsMapSet acc m.id m) acc)) := by
  induction ms generalizing acc with
  | nil => exact ⟨h1, h2⟩
  | cons m ms ih =>
    rw [List.foldl_cons]
    exact ih _ (jsMapSet_keys_nodup acc m.id m h1)
      (jsMapSet_keysMatch acc m.id m rfl h2)

theorem dedupeById_ids_nodup (ms : List MemoryFragment) :
    ((dedupeById ms).map (·.id)).Nodup := by
  obtain ⟨h1, h2⟩ := dedupe_fold_invariants ms []
    (by simp) (by intro p hp; simp at hp)
  unfold dedupeById
  rw [List.map_map]
  have heq : ((ms.foldl (fun acc m => jsMapSet acc m.id m) []).map
      (MemoryFragment.id ∘ (·.2)))
      = (ms.foldl (fun acc m => jsMapSet acc m.id m) []).map (·.1) :=
    List.map_congr_left (fun p hp => h2 p hp)
  rw [heq]
  exact h1

/-- C2 amended: the Memory Ranker returns at most ten fragments with pairwise
distinct ids, ordered by weakly descending (non-increasing) score; strict
descent fails on score ties, which the stable sort keeps in pool order. -/
theorem rankMemories_length_nodup_descending (now : ℚ)
    (memories : List MemoryFragment) :
    (rankMemories now memories).length ≤ 10 ∧
    ((rankMemories now memories).map (·.id)).Nodup ∧
    (rankMemories now memories).Sorted
      (fun a b => calculateMemoryScore now b ≤ calculateMemoryScore now a) := by
  unfold rankMemories
  have hperm := List.perm_insertionSort memPairLe
    ((dedupeById memories).map (fun m => (m, calculateMemoryScore now m)))
  refine ⟨?_, ?_, ?_⟩
  · rw [List.length_map, List.length_take]
    exact min_le_left _ _
  · rw [List.map_map, List.map_take]
    refine List.Sublist.nodup (List.take_sublist 10 _) ?_
    have hscored : (((dedupeById memories).map
        (fun m => (m, calculateMemoryScore now m))).map
          (MemoryFragment.id ∘ (·.1))).Nodup := by
      rw [List.map_map]
      exact dedupeById_ids_nodup memories
    exact ((hperm.map (MemoryFragment.id ∘ (·.1))).nodup_iff).mpr hscored
  · have hsorted := List.sorted_insertionSort memPairLe
      ((dedupeById memories).map (fun m => (m, calculateMemoryScore now m)))
    have hmem : ∀ p ∈ (((dedupeById memories).map
        (fun m => (m, calculateMemoryScore now m))).insertionSort memPairLe),
        p.2 = calculateMemoryScore now p.1 := by
      intro p hp
      have hp2 := hperm.mem_iff.mp hp
      obtain ⟨m, _, hm⟩ := List.mem_map.mp hp2
      rw [← hm]
    have hpair : (((dedupeById memories).map
        (fun m => (m, calculateMemoryScore now m))).insertionSort
          memPairLe).Pairwise
        (fun p q => calculateMemoryScore now q.1 ≤ calculateMemoryScore now p.1) := by
      refine List.Pairwise.imp_of_mem ?_ hsorted
      intro p q hp hq hle
      have hple : q.2 - p.2 ≤ 0 := hle
      rw [hmem p hp, hmem q hq] at hple
      linarith
    rw [List.Sorted]
    rw [List.pairwise_map]
    exact (hpair.sublist (List.take_sublist _ _))

/-- First memory of the tie counterexample. -/
def memA : MemoryFragment := ⟨1, 1/2, 0, 0, some (1/2)⟩

/-- Second memory of the tie counterexample: identical to the first except
for its id, hence with the same score. -/
def memB : MemoryFragment := ⟨2, 1/2, 0, 0, some (1/2)⟩

/-- C2 counterexample: two distinct fragments with identical attributes tie on
the score, the stable sort keeps both in pool order, and the output is not
strictly descending. -/
theorem rankMemories_not_strictly_descending :
    rankMemories 0 [memA, memB] = [memA, memB] ∧
    calculateMemoryScore 0 memA = calculateMemoryScore 0 memB ∧
    ¬ List.Chain' (fun a b => calculateMemoryScore 0 b < calculateMemoryScore 0 a)
        (rankMemories 0 [memA, memB]) := by
  have h2 : calculateMemoryScore 0 memA = calculateMemoryScore 0 memB := rfl
  have hle : memPairLe (memA, calculateMemoryScore 0 memA)
      (memB, calculateMemoryScore 0 memB) := by
    show calculateMemoryScore 0 memB - calculateMemoryScore 0 memA ≤ 0
    rw [h2]
    simp
  have h1 : rankMemories 0 [memA, memB] = [memA, memB] := by
    unfold rankMemories
    rw [show dedupeById [memA, memB] = [memA, memB] from rfl]
    simp only [List.map_cons, List.map_nil, List.insertionSort,
      List.orderedInsert]
    rw [if_pos hle]
    rfl
  refine ⟨h1, h2, ?_⟩
  rw [h1]
  simp only [List.chain'_cons, List.chain'_singleton, and_true]
  rw [h2]
  exact lt_irrefl _

/-! ### Claim C4: the chat handler's over-length guard -/

/-- HTTP methods distinguished by the handler. -/
inductive HttpMethod
  | options | post | other
deriving DecidableEq

/-- Store mutations the turn pipeline can issue through Supabase. -/
inductive StoreOp
  | insertConversation
  | insertMessage
  | insertMemoryFragment
  | updateConversation
deriving DecidableEq

/-- A chat request body: message is none when the field is missing or not a
string. -/
structure ChatRequest where
  method : HttpMethod
  message : Option Str
  userId : Str
  chatId : Str

/-- The handler's observable outcome: status code, the response string when
one is set, and the store writes issued while handling the request. -/
structure TurnOutcome where
  status : Nat
  response : Option Str
  writes : List StoreOp
deriving DecidableEq

/-- The canned persona reply of the over-length branch. -/
def messageTooLongReply : Str :=
  strL "That" ++ [apos] ++
    strL "s quite a mouthful. In my day, we kept messages short and to the point. Like a good punch card."

/-- Embedding of the module.exports handler of src/api/chat.js.  Everything
after the validation guards (state loading, generation, persistence) is the
pipeline parameter: it is the only part of the handler that can write to the
store, and it runs only when every guard has passed. -/
def chatHandler (pipeline : ChatRequest → TurnOutcome) (req : ChatRequest) :
    TurnOutcome :=
  if req.method = .options then ⟨200, none, []⟩
  else if req.method ≠ .post then ⟨405, none, []⟩
  else
    match req.message with
    | none => ⟨400, none, []⟩
    | some m =>
      if m.isEmpty then ⟨400, none, []⟩
      else if m.length > 1000 then ⟨400, some messageTooLongReply, []⟩
      else pipeline req

/-- C4: a POST request whose message is a string longer than 1000 characters
is answered with status 400 and the canned persona reply, and no store write
is issued, whatever the rest of the pipeline would do. -/
theorem overlong_message_rejected_no_writes
    (pipeline : ChatRequest → TurnOutcome) (req : ChatRequest) (m : Str)
    (hpost : req.method = .post) (hm : req.message = some m)
    (hlen : m.length > 1000) :
    chatHandler pipeline req = ⟨400, some messageTooLongReply, []⟩ := by
  unfold chatHandler
  rw [hpost, hm]
  have hne : m.isEmpty = false := by
    cases m
    · simp at hlen
    · rfl
  simp [hne, hlen]

/-- A concrete 1001-character message. -/
def overlongMessage : Str := List.replicate 1001 'a'

/-- A concrete over-length request. -/
def overlongRequest : ChatRequest :=
  ⟨.post, some overlongMessage, strL "u1", strL "c1"⟩

/-- A pipeline stub that would write to every store table if it ran. -/
def writingPipeline : ChatRequest → TurnOutcome := fun _ =>
  ⟨200, none, [.insertConversation, .insertMessage, .updateConversation,
    .insertMemoryFragment]⟩

/-- C4 witness: the guard theorem applied to a concrete 1001-character request
and a pipeline that would have written to every table. -/
theorem overlong_message_rejected_no_writes_witness :
    chatHandler writingPipeline overlongRequest
      = ⟨400, some messageTooLongReply, []⟩ :=
  overlong_message_rejected_no_writes writingPipeline overlongRequest
    overlongMessage rfl rfl (by simp [overlongMessage])

/-! ### Candidate generation (class QuantumResponseGenerator) -/

/-- The emotional-depth slice used by the generator. -/
structure EmotionalDepth where
  primaryEmotion : EmotionName
deriving DecidableEq

/-- The slice of an analyzeWithDepth result consumed by template selection,
template filling and candidate scoring.  The field types record the value
ranges the analyzer can produce: topics from the semantic-network categories,
the three sentiment labels, and the lexicon emotion names. -/
structure Analysis where
  primaryTopics : List Topic
  sentiment : Sentiment
  containsQuestion : Bool
  complexity : ℚ
  personalPronouns : Nat
  urgency : Urgency
  emotionalDepth : EmotionalDepth
deriving DecidableEq

/-- A response template of initializeResponseTemplates. -/
structure Template where
  id : Str
  template : Str
  confidence : ℚ
  sentiment : Option Str
  emotion : Option Str
  complexity : Option ℚ
  topics : List Str

/-- Template q1. -/
def templateQ1 : Template :=
  ⟨strL "q1",
   strL "Now that" ++ [apos] ++
     strL "s a question worth its weight in punch cards. \x7bresponse\x7d",
   4/5, some (strL "neutral"), none, some (3/5), [strL "general"]⟩

/-- Template q2. -/
def templateQ2 : Template :=
  ⟨strL "q2",
   strL "Hmm. Let me dust off the old memory banks. \x7bresponse\x7d",
   7/10, some (strL "contemplative"), none, some (1/2),
   [strL "memory", strL "history"]⟩

/-- Template q3. -/
def templateQ3 : Template :=
  ⟨strL "q3",
   strL "You know, I" ++ [apos] ++
     strL "ve been thinking about that very thing. \x7bresponse\x7d",
   3/4, some (strL "reflective"), none, some (7/10),
   [strL "philosophy", strL "life"]⟩

/-- Template r1. -/
def templateR1 : Template :=
  ⟨strL "r1", strL "That reminds me... \x7bresponse\x7d",
   4/5, some (strL "nostalgic"), none, some (3/5),
   [strL "memory", strL "past"]⟩

/-- Template r2. -/
def templateR2 : Template :=
  ⟨strL "r2",
   strL "You" ++ [apos] ++ strL "re speaking my language. \x7bresponse\x7d",
   17/20, some (strL "enthusiastic"), none, some (1/2),
   [strL "technology", strL "science"]⟩

/-- Template r3. -/
def templateR3 : Template :=
  ⟨strL "r3", strL "Ah, yes. \x7bresponse\x7d",
   7/10, some (strL "approving"), none, some (2/5), [strL "general"]⟩

/-- Template e1. -/
def templateE1 : Template :=
  ⟨strL "e1", strL "I feel \x7bemotion\x7d about that too. \x7bresponse\x7d",
   3/4, none, some (strL "curious"), some (1/2), [strL "emotion"]⟩

/-- Template e2. -/
def templateE2 : Template :=
  ⟨strL "e2",
   strL "That \x7bsentiment\x7d perspective resonates with me. \x7bresponse\x7d",
   7/10, some (strL "positive"), none, some (3/5),
   [strL "emotion", strL "philosophy"]⟩

/-- Template g1. -/
def templateG1 : Template :=
  ⟨strL "g1",
   strL "Interesting perspective on \x7btopic\x7d. \x7bresponse\x7d",
   3/5, some (strL "neutral"), none, some (1/2), [strL "general"]⟩

/-- Template g2. -/
def templateG2 : Template :=
  ⟨strL "g2",
   strL "Let me tell you something about \x7btopic\x7d. \x7bresponse\x7d",
   7/10, some (strL "instructive"), none, some (3/5), [strL "general"]⟩

/-- The questions group of responseTemplates. -/
def questionTemplates : List Template := [templateQ1, templateQ2, templateQ3]

/-- The reflections group of responseTemplates. -/
def reflectionTemplates : List Template := [templateR1, templateR2, templateR3]

/-- The emotional group of responseTemplates. -/
def emotionalTemplates : List Template := [templateE1, templateE2]

/-- The generic group of responseTemplates. -/
def genericTemplates : List Template := [templateG1, templateG2]

/-- All templates of initializeResponseTemplates, in group order. -/
def allResponseTemplates : List Template :=
  questionTemplates ++ reflectionTemplates ++ emotionalTemplates ++
    genericTemplates

/-- QuantumResponseGenerator.templateMatchesTopics. -/
def templateMatchesTopics (template : Template) (topics : List Topic) : Bool :=
  if template.topics.isEmpty then true
  else template.topics.any (fun tp => (topics.map topicName).contains tp)

/-- Question templates pushed by selectTemplatesForContext when the analysis
contains a question. -/
def questionSelection (analysis : Analysis) : List Template :=
  if analysis.containsQuestion then
    questionTemplates.filter (fun t =>
      decide (t.confidence > 3/5) &&
        templateMatchesTopics t analysis.primaryTopics)
  else []

/-- Reflection templates pushed when the sentiment is not neutral. -/
def reflectionSelection (analysis : Analysis) : List Template :=
  if analysis.sentiment ≠ .neutral then
    reflectionTemplates.filter (fun t =>
      decide (t.sentiment = some (sentimentName analysis.sentiment)))
  else []

/-- Emotional templates pushed for the analysis primary emotion. -/
def emotionalSelection (analysis : Analysis) : List Template :=
  emotionalTemplates.filter (fun t =>
    decide (t.emotion = some (emotionName analysis.emotionalDepth.primaryEmotion)))

/-- The selected templates before generic padding, in push order. -/
def baseSelection (analysis : Analysis) : List Template :=
  questionSelection analysis ++ reflectionSelection analysis ++
    emotionalSelection analysis

/-- QuantumResponseGenerator.selectTemplatesForContext: matching question
templates when the analysis contains a question, reflection templates with the
analysis sentiment, emotional templates with the analysis primary emotion,
padded with high-confidence generic templates up to three. -/
def selectTemplatesForContext (analysis : Analysis) (state : ConvState) :
    List Template :=
  if (baseSelection analysis).length < 3 then
    baseSelection analysis ++
      (genericTemplates.filter (fun t => decide (t.confidence > 1/2))).take
        (3 - (baseSelection analysis).length)
  else baseSelection analysis

/-- JavaScript String.prototype.replace with a string pattern: replace the
first occurrence only. -/
def replaceFirst (s pat repl : Str) : Str :=
  match s with
  | [] => []
  | c :: cs =>
    if pat.isPrefixOf (c :: cs) then repl ++ (c :: cs).drop pat.length
    else c :: replaceFirst cs pat repl

/-- Placeholder strings of fillTemplate. -/
def topicPlaceholder : Str := strL "\x7btopic\x7d"

/-- The sentiment placeholder. -/
def sentimentPlaceholder : Str := strL "\x7bsentiment\x7d"

/-- The emotion placeholder. -/
def emotionPlaceholder : Str := strL "\x7bemotion\x7d"

/-- The userFocus placeholder. -/
def userFocusPlaceholder : Str := strL "\x7buserFocus\x7d"

/-- The response placeholder, which no replacement rule ever touches. -/
def responsePlaceholder : Str := strL "\x7bresponse\x7d"

/-- QuantumResponseGenerator.getUserFocus. -/
def getUserFocus (analysis : Analysis) : Str :=
  if analysis.personalPronouns > 3 then strL "your personal experience"
  else if analysis.containsQuestion then strL "your question"
  else if analysis.urgency = .high then strL "your urgent matter"
  else strL "our conversation"

/-- Value substituted for the topic placeholder:
analysis.primaryTopics[0] || 'that'. -/
def topicValue (analysis : Analysis) : Str :=
  match analysis.primaryTopics with
  | [] => strL "that"
  | t :: _ => topicName t

/-- One guarded replacement of fillTemplate. -/
def applyReplacement (response : Str) (pv : Str × Str) : Str :=
  if strHas response pv.1 then replaceFirst response pv.1 pv.2 else response

/-- QuantumResponseGenerator.fillTemplate: substitute the topic, sentiment,
emotion and userFocus placeholders, in that order, first occurrence each. -/
def fillTemplate (template : Template) (analysis : Analysis) : Str :=
  [(topicPlaceholder, topicValue analysis),
   (sentimentPlaceholder, sentimentName analysis.sentiment),
   (emotionPlaceholder, emotionName analysis.emotionalDepth.primaryEmotion),
   (userFocusPlaceholder, getUserFocus analysis)].foldl
    applyReplacement template.template

/-- QuantumResponseGenerator.calculateTemplateFitness. -/
def calculateTemplateFitness (template : Template) (analysis : Analysis) : ℚ :=
  min 1
    ((if template.sentiment = some (sentimentName analysis.sentiment)
        then (1/2 : ℚ) + 1/5 else 1/2)
      + (match template.complexity with
          | some tc => (1/5) * (1 - |tc - analysis.complexity|)
          | none => 0)
      + (if template.topics.any
            (fun tp => (analysis.primaryTopics.map topicName).contains tp)
          then 1/10 else 0))

/-- QuantumResponseGenerator.calculateResponseComplexity. -/
def calculateResponseComplexity (response : Str) : ℚ :=
  if (jsWordTokens response).length = 0 then 0
  else
    min 1
      (((((jsWordTokens response).map (·.length)).sum : ℚ)
          / (jsWordTokens response).length / 10) * (2/5)
        + (((jsWordTokens response).dedup.length : ℚ)
            / (jsWordTokens response).length) * (2/5)
        + (((sentencesOf response).length : ℚ) / 3) * (1/5))

/-- Source tags of response candidates. -/
inductive CandidateSource
  | template | memory | grammar | knowledge | fallback
deriving DecidableEq

/-- A response candidate.  coherenceScore is an optional field because no
generation strategy ever sets it: it is undefined on every candidate that
reaches the selector. -/
structure Candidate where
  text : Str
  confidence : ℚ
  complexity : Option ℚ
  source : CandidateSource
  coherenceScore : Option ℚ
deriving DecidableEq

/-- The candidate built from one selected template in generateFromTemplates.
No coherenceScore is attached. -/
def templateCandidate (template : Template) (analysis : Analysis) : Candidate :=
  ⟨fillTemplate template analysis,
   template.confidence * calculateTemplateFitness template analysis,
   some (calculateResponseComplexity (fillTemplate template analysis)),
   .template, none⟩

/-- QuantumResponseGenerator.generateFromTemplates: fill the first three
selected templates. -/
def generateFromTemplates (analysis : Analysis) (state : ConvState) :
    List Candidate :=
  ((selectTemplatesForContext analysis state).take 3).map
    (fun template => templateCandidate template analysis)

/-- QuantumResponseGenerator.generateResponseCandidates: the four strategies
run unconditionally and their outputs are concatenated.  The memory, grammar
and knowledge strategies involve store I/O and random draws, so their outputs
are passed in as parameters. -/
def generateResponseCandidates (analysis : Analysis) (state : ConvState)
    (memoryCandidates grammarCandidates knowledgeCandidates : List Candidate) :
    List Candidate :=
  generateFromTemplates analysis state ++ memoryCandidates ++
    grammarCandidates ++ knowledgeCandidates

/-! ### Candidate selection (collapseResponseWaveform) -/

/-- QuantumResponseGenerator.calculateRelevance: base 0.5, +0.3 on topic
overlap, +0.2 when the analysis contains a question and the candidate text
contains a question mark, capped at 1. -/
def calculateRelevance (candidate : Candidate) (analysis : Analysis) : ℚ :=
  min 1
    ((1/2 : ℚ)
      + (if ((extractTopics candidate.text).filter
            (fun tp => analysis.primaryTopics.contains tp)).length > 0
          then 3/10 else 0)
      + (if analysis.containsQuestion && candidate.text.contains '?'
          then 1/5 else 0))

/-- QuantumResponseGenerator.calculateResponseSimilarity: Jaccard similarity
of the lowercased word-token sets. -/
def calculateResponseSimilarity (response1 response2 : Str) : ℚ :=
  if ((runsOf wordChar (lowerStr response1)).dedup
      ++ (runsOf wordChar (lowerStr response2)).dedup).dedup.length > 0 then
    (((runsOf wordChar (lowerStr response1)).dedup.filter
        (fun w => (runsOf wordChar (lowerStr response2)).dedup.contains w)).length : ℚ)
      / ((runsOf wordChar (lowerStr response1)).dedup
          ++ (runsOf wordChar (lowerStr response2)).dedup).dedup.length
  else 0

/-- Last n elements of a list (Array.prototype.slice with a negative index). -/
def takeLast (n : Nat) (l : List Str) : List Str := l.drop (l.length - n)

/-- QuantumResponseGenerator.calculateNoveltyForCandidate: start at 0.7,
subtract 0.2 for each of the last three agent responses that is more than 0.7
similar, floor at 0.1. -/
def calculateNoveltyForCandidate (candidate : Candidate) (state : ConvState) : ℚ :=
  max (1/10)
    ((takeLast 3 ((state.shortTermMemory.filter
        (fun msg => msg.role = .benn)).map (·.content))).foldl
      (fun nov recent =>
        if calculateResponseSimilarity candidate.text recent > 7/10
        then nov - 1/5 else nov)
      (7/10))

/-- Nostalgic vocabulary of containsNostalgicLanguage. -/
def nostalgicWords : List Str :=
  [strL "remember", strL "past", strL "old", strL "used to",
   strL "back then", strL "nostalgia", strL "memory"]

/-- Technical vocabulary of containsTechnicalLanguage. -/
def technicalWords : List Str :=
  [strL "code", strL "program", strL "algorithm", strL "function",
   strL "logic", strL "binary", strL "compute"]

/-- Philosophical vocabulary of containsPhilosophicalLanguage. -/
def philosophicalWords : List Str :=
  [strL "meaning", strL "purpose", strL "exist", strL "truth",
   strL "reality", strL "consciousness"]

/-- Vocabulary test used by the personality match. -/
def containsVocabulary (words : List Str) (text : Str) : Bool :=
  words.any (fun w => strHas (lowerStr text) w)

/-- JavaScript comparison personality.trait > threshold where the trait may be
undefined: undefined compares false. -/
def jsGtOpt (x : Option ℚ) (threshold : ℚ) : Bool :=
  match x with
  | some v => decide (v > threshold)
  | none => false

/-- QuantumResponseGenerator.calculatePersonalityMatch.  The source reads
personality.technology and personality.philosophy, properties that
generatePersonalityVector never sets, so those two bonuses require a vector
that carries them. -/
def calculatePersonalityMatch (candidate : Candidate) (state : ConvState) : ℚ :=
  min 1
    ((1/2 : ℚ)
      + (if jsGtOpt (state.personalityVector .nostalgia) (7/10) &&
            containsVocabulary nostalgicWords candidate.text
          then 1/5 else 0)
      + (if jsGtOpt (state.personalityVector .technology) (7/10) &&
            containsVocabulary technicalWords candidate.text
          then 1/5 else 0)
      + (if jsGtOpt (state.personalityVector .philosophy) (3/5) &&
            containsVocabulary philosophicalWords candidate.text
          then 1/10 else 0))

/-- QuantumResponseGenerator.calculateEmotionalFit. -/
def calculateEmotionalFit (candidate : Candidate) (analysis : Analysis) : ℚ :=
  if analyzeSentiment candidate.text = analysis.sentiment then 4/5
  else if analyzeSentiment candidate.text = .neutral then 1/2
  else 3/10

/-- QuantumResponseGenerator.calculateCandidateScore.  The coherence term is
candidate.coherenceScore * 0.15; no generation strategy sets coherenceScore,
and in JavaScript undefined * 0.15 is NaN, which propagates through the sum.
A NaN result is modelled as none. -/
def calculateCandidateScore (candidate : Candidate) (analysis : Analysis)
    (state : ConvState) : Option ℚ :=
  match candidate.coherenceScore with
  | none => none
  | some coherenceScore =>
    some (candidate.confidence * (3/10)
      + calculateRelevance candidate analysis * (1/4)
      + calculateNoveltyForCandidate candidate state * (3/20)
      + coherenceScore * (3/20)
      + calculatePersonalityMatch candidate state * (1/10)
      + calculateEmotionalFit candidate analysis * (1/20))

/-- The ECMAScript SortCompare test of the comparator
(a, b) => b.score - a.score when scores can be NaN: a NaN comparator value is
coerced to +0, so any pair involving a NaN score compares as equal, and a may
precede b exactly when the comparator value is at most zero. -/
def candidateLeB (analysis : Analysis) (state : ConvState)
    (a b : Candidate) : Bool :=
  match calculateCandidateScore a analysis state,
      calculateCandidateScore b analysis state with
  | some x, some y => decide (y - x ≤ 0)
  | _, _ => true

/-- The sort order of collapseResponseWaveform as a relation. -/
def candidateLe (analysis : Analysis) (state : ConvState)
    (a b : Candidate) : Prop :=
  candidateLeB analysis state a b = true

instance (analysis : Analysis) (state : ConvState) :
    DecidableRel (candidateLe analysis state) := fun a b =>
  inferInstanceAs (Decidable (candidateLeB analysis state a b = true))

/-- The fixed fallback candidate of collapseResponseWaveform (complexity and
coherenceScore are absent on the source object). -/
def fallbackCandidate : Candidate :=
  ⟨strL "Hmm, let me think about that for a moment.", 3/10, none,
   .fallback, none⟩

/-- QuantumResponseGenerator.collapseResponseWaveform: the fixed fallback on
an empty pool, otherwise the head of the stable sort by descending score (the
source returns the scored copy of the candidate; the added score field is
dropped here). -/
def collapseResponseWaveform (candidates : List Candidate)
    (analysis : Analysis) (state : ConvState) : Candidate :=
  match candidates with
  | [] => fallbackCandidate
  | c :: cs =>
    ((c :: cs).insertionSort (candidateLe analysis state)).headD
      fallbackCandidate

/-- QuantumResponseGenerator.calculateResponseCoherence: topic Jaccard between
a response and the last user message of the short-term memory. -/
def calculateResponseCoherence (response : Str)
    (shortTermMemory : List Msg) : ℚ :=
  if shortTermMemory.isEmpty then 7/10
  else
    match (shortTermMemory.filter (fun msg => msg.role = .user)).getLast? with
    | none => 1/2
    | some lastUserMessage =>
      if ((extractTopics lastUserMessage.content
            ++ extractTopics response).dedup.length) > 0 then
        (((extractTopics lastUserMessage.content).filter
            (fun tp => (extractTopics response).contains tp)).length : ℚ)
          / ((extractTopics lastUserMessage.content
              ++ extractTopics response).dedup.length)
      else 1/2

/-- Modelled from the spec: the candidate score claim C1 describes, with the
coherence component pre-computed on the candidate itself as the topic Jaccard
between the candidate text and the previous user message
(calculateResponseCoherence); the code never attaches such a score to a
candidate, so this definition exists only for comparison with
calculateCandidateScore. -/
def claimedCandidateScore (candidate : Candidate) (analysis : Analysis)
    (state : ConvState) : ℚ :=
  candidate.confidence * (3/10)
    + calculateRelevance candidate analysis * (1/4)
    + calculateNoveltyForCandidate candidate state * (3/20)
    + calculateResponseCoherence candidate.text state.shortTermMemory * (3/20)
    + calculatePersonalityMatch candidate state * (1/10)
    + calculateEmotionalFit candidate analysis * (1/20)

/-- C8: on an empty candidate pool the selector returns the fixed fallback
candidate with source fallback, confidence 0.3 and the canned text. -/
theorem empty_pool_fallback (analysis : Analysis) (state : ConvState) :
    collapseResponseWaveform [] analysis state = fallbackCandidate ∧
    fallbackCandidate.source = CandidateSource.fallback ∧
    fallbackCandidate.confidence = 3/10 ∧
    fallbackCandidate.text = strL "Hmm, let me think about that for a moment." :=
  ⟨rfl, rfl, rfl, rfl⟩

theorem templateG1_conf : decide (templateG1.confidence > (1/2 : ℚ)) = true := by
  rw [decide_eq_true_eq]
  simp only [templateG1]
  norm_num

theorem templateG2_conf : decide (templateG2.confidence > (1/2 : ℚ)) = true := by
  rw [decide_eq_true_eq]
  simp only [templateG2]
  norm_num

theorem genericFiltered :
    genericTemplates.filter (fun t => decide (t.confidence > (1/2 : ℚ)))
      = genericTemplates := by
  unfold genericTemplates
  simp only [List.filter_cons, templateG1_conf, templateG2_conf, if_pos,
    List.filter_nil]

theorem selectTemplates_length (analysis : Analysis) (state : ConvState) :
    2 ≤ (selectTemplatesForContext analysis state).length := by
  unfold selectTemplatesForContext
  rw [genericFiltered]
  by_cases h : (baseSelection analysis).length < 3
  · rw [if_pos h, List.length_append, List.length_take]
    have hg : genericTemplates.length = 2 := rfl
    rw [hg]
    omega
  · rw [if_neg h]
    omega

theorem generateFromTemplates_length (analysis : Analysis) (state : ConvState) :
    2 ≤ (generateFromTemplates analysis state).length := by
  unfold generateFromTemplates
  rw [List.length_map, List.length_take]
  have := selectTemplates_length analysis state
  omega

theorem collapse_mem (candidates : List Candidate) (analysis : Analysis)
    (state : ConvState) (h : candidates ≠ []) :
    collapseResponseWaveform candidates analysis state ∈ candidates := by
  match candidates with
  | [] => exact absurd rfl h
  | c :: cs =>
    unfold collapseResponseWaveform
    have hperm := List.perm_insertionSort (candidateLe analysis state) (c :: cs)
    have hne : ((c :: cs).insertionSort (candidateLe analysis state)) ≠ [] := by
      intro hnil
      have hl := hperm.length_eq
      rw [hnil] at hl
      simp at hl
    obtain ⟨x, xs, hx⟩ := List.exists_cons_of_ne_nil hne
    show ((c :: cs).insertionSort (candidateLe analysis state)).headD
      fallbackCandidate ∈ c :: cs
    rw [hx]
    simp only [List.headD_cons]
    exact hperm.mem_iff.mp (by rw [hx]; exact List.mem_cons_self x xs)

/-- C10: the template strategy always yields at least two candidates (the two
generic templates both pass the confidence bar 0.5 and pad any shortfall), so
the concatenated pool handed to collapseResponseWaveform is never empty and
the selector returns a member of the pool, never the fallback branch. -/
theorem template_strategy_pool_nonempty (analysis : Analysis)
    (state : ConvState)
    (memoryCandidates grammarCandidates knowledgeCandidates : List Candidate) :
    2 ≤ (generateFromTemplates analysis state).length ∧
    genericTemplates.all (fun t => decide (t.confidence > (1/2 : ℚ))) = true ∧
    generateResponseCandidates analysis state memoryCandidates
      grammarCandidates knowledgeCandidates ≠ [] ∧
    collapseResponseWaveform
        (generateResponseCandidates analysis state memoryCandidates
          grammarCandidates knowledgeCandidates) analysis state
      ∈ generateResponseCandidates analysis state memoryCandidates
          grammarCandidates knowledgeCandidates := by
  have hlen := generateFromTemplates_length analysis state
  have hne : generateResponseCandidates analysis state memoryCandidates
      grammarCandidates knowledgeCandidates ≠ [] := by
    apply List.ne_nil_of_length_pos
    unfold generateResponseCandidates
    rw [List.length_append, List.length_append, List.length_append]
    omega
  refine ⟨hlen, ?_, hne, collapse_mem _ analysis state hne⟩
  unfold genericTemplates
  simp only [List.all_cons, List.all_nil, templateG1_conf, templateG2_conf,
    Bool.and_self, Bool.and_true]

/-! ### Claim C9: the response placeholder survives template filling -/

theorem fillTemplate_keeps_response (t : Template)
    (ht : t ∈ allResponseTemplates) (analysis : Analysis) :
    strHas (fillTemplate t analysis) responsePlaceholder = true := by
  simp only [allResponseTemplates, questionTemplates, reflectionTemplates,
    emotionalTemplates, genericTemplates, List.mem_append, List.mem_cons,
    List.not_mem_nil, or_false] at ht
  obtain ⟨tps, st, cq, cx, pp, ur, ⟨pe⟩⟩ := analysis
  rcases ht with (((rfl | rfl | rfl) | (rfl | rfl | rfl)) | (rfl | rfl)) | (rfl | rfl)
  · simp +decide [fillTemplate, applyReplacement, topicValue]
  · simp +decide [fillTemplate, applyReplacement, topicValue]
  · simp +decide [fillTemplate, applyReplacement, topicValue]
  · simp +decide [fillTemplate, applyReplacement, topicValue]
  · simp +decide [fillTemplate, applyReplacement, topicValue]
  · simp +decide [fillTemplate, applyReplacement, topicValue]
  · cases pe <;> simp +decide [fillTemplate, applyReplacement, topicValue]
  · cases st <;> simp +decide [fillTemplate, applyReplacement, topicValue]
  · cases tps with
    | nil => simp +decide [fillTemplate, applyReplacement, topicValue]
    | cons tp rest =>
      cases tp <;> simp +decide [fillTemplate, applyReplacement, topicValue]
  · cases tps with
    | nil => simp +decide [fillTemplate, applyReplacement, topicValue]
    | cons tp rest =>
      cases tp <;> simp +decide [fillTemplate, applyReplacement, topicValue]

theorem baseSelection_subset (analysis : Analysis) (t : Template)
    (ht : t ∈ baseSelection analysis) : t ∈ allResponseTemplates := by
  simp only [allResponseTemplates, List.mem_append]
  rcases List.mem_append.mp ht with hu2 | hu3
  · rcases List.mem_append.mp hu2 with hq | hr
    · unfold questionSelection at hq
      split at hq
      · exact Or.inl (Or.inl (Or.inl (List.mem_filter.mp hq).1))
      · simp at hq
    · unfold reflectionSelection at hr
      split at hr
      · exact Or.inl (Or.inl (Or.inr (List.mem_filter.mp hr).1))
      · simp at hr
  · exact Or.inl (Or.inr (List.mem_filter.mp hu3).1)

theorem selectTemplates_subset (analysis : Analysis) (state : ConvState)
    (t : Template) (ht : t ∈ selectTemplatesForContext analysis state) :
    t ∈ allResponseTemplates := by
  unfold selectTemplatesForContext at ht
  split at ht
  · rcases List.mem_append.mp ht with hsel | hpad
    · exact baseSelection_subset analysis t hsel
    · have hg : t ∈ genericTemplates :=
        (List.mem_filter.mp (List.mem_of_mem_take hpad)).1
      simp only [allResponseTemplates, List.mem_append]
      exact Or.inr hg
  · exact baseSelection_subset analysis t ht

/-- C9: every candidate produced by the template-fill strategy carries the
literal response placeholder in its text, and every template in the template
set carries it too: fillTemplate substitutes only the topic, sentiment,
emotion and userFocus placeholders. -/
theorem template_candidates_contain_response_placeholder
    (analysis : Analysis) (state : ConvState) (c : Candidate)
    (hc : c ∈ generateFromTemplates analysis state) :
    strHas c.text responsePlaceholder = true ∧
    allResponseTemplates.all
      (fun t => strHas t.template responsePlaceholder) = true := by
  constructor
  · obtain ⟨t, ht, hct⟩ := List.mem_map.mp hc
    have ht2 : t ∈ allResponseTemplates :=
      selectTemplates_subset analysis state t (List.mem_of_mem_take ht)
    rw [← hct]
    exact fillTemplate_keeps_response t ht2 analysis
  · decide

/-- The analysis slice produced by the analyzer on a topic-free neutral
message with no question: used as a concrete generator input. -/
def analysisHello : Analysis :=
  ⟨[.general], .neutral, false, 0, 0, .low, ⟨.neutral⟩⟩

/-- A fresh conversation state: no messages, no personality traits set. -/
def stateEmpty : ConvState := ⟨[], fun _ => none, 0⟩

theorem selectHello :
    selectTemplatesForContext analysisHello stateEmpty
      = [templateG1, templateG2] := by
  simp only [selectTemplatesForContext]
  rw [genericFiltered]
  rfl

theorem templateG1_candidate_mem :
    templateCandidate templateG1 analysisHello
      ∈ generateFromTemplates analysisHello stateEmpty := by
  unfold generateFromTemplates
  rw [selectHello]
  exact List.mem_map_of_mem _ (List.mem_cons_self _ _)

/-- C9 witness: the first template candidate of a concrete turn keeps the
response placeholder. -/
theorem template_candidates_contain_response_placeholder_witness :
    strHas (templateCandidate templateG1 analysisHello).text
      responsePlaceholder = true ∧
    allResponseTemplates.all
      (fun t => strHas t.template responsePlaceholder) = true :=
  template_candidates_contain_response_placeholder analysisHello stateEmpty
    (templateCandidate templateG1 analysisHello) templateG1_candidate_mem

/-! ### Claim C1: the candidate selector and the missing coherence score -/

/-- A pool candidate with low confidence (first in generation order). -/
def candLow : Candidate := ⟨strL "hello", 1/10, none, .template, none⟩

/-- A pool candidate with high confidence (second in generation order). -/
def candHigh : Candidate := ⟨strL "hello", 9/10, none, .template, none⟩

/-- C1 (code bug): no generation strategy sets coherenceScore, so
calculateCandidateScore is NaN (none) for every candidate; the sort comparator
coerces NaN to zero, the stable sort leaves the pool order unchanged, and the
selector returns the first candidate even when the claimed score formula puts
the second candidate strictly higher. -/
theorem selector_undefined_coherence_code_bug :
    calculateCandidateScore candLow analysisHello stateEmpty = none ∧
    calculateCandidateScore candHigh analysisHello stateEmpty = none ∧
    collapseResponseWaveform [candLow, candHigh] analysisHello stateEmpty
      = candLow ∧
    claimedCandidateScore candLow analysisHello stateEmpty
      < claimedCandidateScore candHigh analysisHello stateEmpty := by
  refine ⟨rfl, rfl, rfl, ?_⟩
  have hl : claimedCandidateScore candLow analysisHello stateEmpty
      = (1/10 : ℚ) * (3/10) + (min 1 ((1/2 : ℚ) + 3/10 + 0)) * (1/4)
        + (max (1/10 : ℚ) (7/10)) * (3/20) + (7/10 : ℚ) * (3/20)
        + (min 1 ((1/2 : ℚ) + 0 + 0 + 0)) * (1/10) + (4/5 : ℚ) * (1/20) := rfl
  have hh : claimedCandidateScore candHigh analysisHello stateEmpty
      = (9/10 : ℚ) * (3/10) + (min 1 ((1/2 : ℚ) + 3/10 + 0)) * (1/4)
        + (max (1/10 : ℚ) (7/10)) * (3/20) + (7/10 : ℚ) * (3/20)
        + (min 1 ((1/2 : ℚ) + 0 + 0 + 0)) * (1/10) + (4/5 : ℚ) * (1/20) := rfl
  rw [hl, hh]
  have hmin1 : min 1 ((1/2 : ℚ) + 3/10 + 0) = 4/5 := by
    rw [min_eq_right (by norm_num)]
    norm_num
  have hmin2 : min 1 ((1/2 : ℚ) + 0 + 0 + 0) = 1/2 := by
    rw [min_eq_right (by norm_num)]
    norm_num
  have hmax : max (1/10 : ℚ) (7/10) = 7/10 := max_eq_right (by norm_num)
  rw [hmin1, hmin2, hmax]
  norm_num
